import Mathlib

/-!
Verification development for the `fastapi_user_manager` service
(`src/fastapi_user_manager/main.py`).

The embedding models the pure decision logic of the service: backend
selection from the two configuration booleans, relational search and
assignment over an explicit database state, directory (LDAP) search and
group-membership modification over an explicit directory state, and the
three HTTP endpoint handlers.  External stores are modelled as explicit
state values; each adapter interaction is recorded in a trace of
`BackendCall` markers so that "no backend call is performed" is a
statement about the trace.
-/

/-- HTTP error as raised by `HTTPException(status_code, detail)`. -/
structure HTTPError where
  status_code : Nat
  detail : String
deriving DecidableEq

/-- Normalized search result, models the `UserOut` pydantic model. -/
structure UserOut where
  id : Option Int
  username : Option String
  email : Option String
  first_name : Option String
  last_name : Option String
  dn : Option String
deriving DecidableEq

/-- Models the `AssignRequest` pydantic model. -/
structure AssignRequest where
  identifier : String
  identifier_type : String
  action : String
  target_type : String
  target : String
deriving DecidableEq

/-- Row of the `auth_user` table (columns used by the service). -/
structure UserRow where
  id : Int
  username : String
  email : String
  first_name : String
  last_name : String
deriving DecidableEq

/-- Row of the `auth_group` table. -/
structure GroupRow where
  id : Int
  name : String
deriving DecidableEq

/-- Relational store state: the four tables the service touches.
`auth_user_groups` rows are `(user_id, group_id)` pairs and
`user_assignments` rows are `(user_id, target_type, target_id)` triples. -/
structure DBState where
  auth_user : List UserRow
  auth_group : List GroupRow
  auth_user_groups : List (Int × Int)
  user_assignments : List (Int × String × String)
deriving DecidableEq

/-- Directory entry.  `entry_dn` models ldap3's `entry.entry_dn` (every
returned entry has one); `distinguishedName` models the attribute of the
same name read from `entry_attributes_as_dict` (may be absent).
`objectClass_group` records whether the entry carries `objectClass=group`,
and `member` the values of the group-membership attribute. -/
structure LdapEntry where
  entry_dn : String
  objectClass_group : Bool
  cn : Option String
  sAMAccountName : Option String
  mail : Option String
  distinguishedName : Option String
  givenName : Option String
  sn : Option String
  member : List String
deriving DecidableEq

/-- Directory state: the entries under the configured search base. -/
structure LdapState where
  entries : List LdapEntry
deriving DecidableEq

/-- Combined external state threaded through the endpoint handlers. -/
structure World where
  db : DBState
  ldap : LdapState
deriving DecidableEq

/-- The two configuration booleans `LDAP_SERVER_AVAILABLE` and
`LDAP_GROUP_FILTER` read from the environment at startup. -/
structure Config where
  LDAP_SERVER_AVAILABLE : Bool
  LDAP_GROUP_FILTER : Bool
deriving DecidableEq

/-- Modelled from the spec: the Backend Selector's mode enumeration
(§4.1).  The code has no named selector; it inlines the boolean
condition at each routing point. -/
inductive BackendMode where
  | Directory
  | Relational
deriving DecidableEq

/-- Modelled from the spec: `activeMode()` of the Backend Selector
(§4.1), `Directory` exactly when both configuration booleans are true. -/
def activeMode (c : Config) : BackendMode :=
  if c.LDAP_SERVER_AVAILABLE && c.LDAP_GROUP_FILTER then BackendMode.Directory
  else BackendMode.Relational

/-- Markers for adapter-level interactions with the external stores,
recorded by the assignment handler in order of execution. -/
inductive BackendCall where
  | dbQuery
  | ldapUserSearch
  | ldapGroupSearch
  | ldapModify (m : String × Bool × String)
deriving DecidableEq

/-- Lower-casing of a character list (ASCII case folding). -/
def lowerChars (l : List Char) : List Char := l.map Char.toLower

/-- Prefix test on character lists. -/
def startsWithChars : List Char → List Char → Bool
  | [], _ => true
  | _ :: _, [] => false
  | a :: as, b :: bs => a == b && startsWithChars as bs

/-- Substring test on character lists. -/
def hasSubChars (sub : List Char) : List Char → Bool
  | [] => sub.isEmpty
  | c :: t => startsWithChars sub (c :: t) || hasSubChars sub t

/-- Modelled from the spec: case-insensitive substring containment, the
spec's reading of the relational match and the directory filter match. -/
def containsCI (s sub : String) : Bool :=
  hasSubChars (lowerChars sub.data) (lowerChars s.data)

/-- SQL `LIKE` pattern matching on character lists (`%` matches any
sequence, `_` any single character), fuelled to keep the definition
structurally recursive.  Every recursive call strictly decreases the sum
of the two lengths, so fuel `p.length + s.length + 1` is exact. -/
def likeMatchFuel : Nat → List Char → List Char → Bool
  | 0, _, _ => false
  | Nat.succ f, p, s =>
    match p, s with
    | [], [] => true
    | [], _ :: _ => false
    | '%' :: ps, [] => likeMatchFuel f ps []
    | '%' :: ps, c :: s' => likeMatchFuel f ps (c :: s') || likeMatchFuel f ('%' :: ps) s'
    | '_' :: ps, c :: s' =>
      let _ := c
      likeMatchFuel f ps s'
    | _ :: _, [] => false
    | p1 :: ps, c :: s' => p1 == c && likeMatchFuel f ps s'

/-- Postgres `ILIKE`: case-insensitive `LIKE`. -/
def ilike (s pat : String) : Bool :=
  likeMatchFuel (pat.data.length + s.data.length + 1)
    (lowerChars pat.data) (lowerChars s.data)

/-- The `WHERE` clause of `search_db_users`: the row matches when
`username ILIKE pat OR email ILIKE pat OR (first_name || ' ' || last_name)
ILIKE pat` with `pat = '%' + query + '%'`. -/
def rowMatches (query : String) (r : UserRow) : Bool :=
  let pat := "%" ++ query ++ "%"
  ilike r.username pat || ilike r.email pat ||
    ilike (r.first_name ++ " " ++ r.last_name) pat

/-- Normalization of a relational row into `UserOut` (the `UserOut(**r)`
construction; `dn` keeps its default `None`). -/
def userOutOfRow (r : UserRow) : UserOut :=
  { id := some r.id, username := some r.username, email := some r.email,
    first_name := some r.first_name, last_name := some r.last_name, dn := none }

/-- Lexicographic order on character lists by code point, the model of
the store's `ORDER BY` collation. -/
def charsLe : List Char → List Char → Bool
  | [], _ => true
  | _ :: _, [] => false
  | a :: as, b :: bs =>
    if a.toNat < b.toNat then true
    else if b.toNat < a.toNat then false
    else charsLe as bs

/-- Ordering used by `ORDER BY username` on `auth_user` rows. -/
def rowLe (a b : UserRow) : Prop :=
  charsLe a.username.data b.username.data = true

instance : DecidableRel rowLe := fun a b =>
  inferInstanceAs (Decidable (charsLe a.username.data b.username.data = true))

/-- Ordering on results by username (relational rows always populate
`username`, so the default only pads the type). -/
def outLe (a b : UserOut) : Prop :=
  charsLe (a.username.getD ("")).data (b.username.getD ("")).data = true

/-- Models `search_db_users` (main.py lines 59–77): filter by the
three-way `ILIKE`, order by username ascending, cap at `limit`, and map
each row into `UserOut`. -/
def search_db_users (db : DBState) (query : String) (limit : Nat) : List UserOut :=
  (((db.auth_user.filter (rowMatches query)).insertionSort rowLe).take limit).map
    userOutOfRow

/-- Models `assign_db_group` (main.py lines 79–114): resolve the user id
by exact username, the group id by exact name (404 on either miss), then
insert the membership edge if absent, or on any other action delete it. -/
def assign_db_group (db : DBState) (username group_name action : String) :
    Except HTTPError DBState :=
  match db.auth_user.find? (fun u => u.username == username) with
  | none => Except.error ⟨404, "DB user not found"⟩
  | some u =>
    match db.auth_group.find? (fun g => g.name == group_name) with
    | none => Except.error ⟨404, "DB group not found"⟩
    | some g =>
      if action == "assign" then
        if db.auth_user_groups.any (fun p => p.1 == u.id && p.2 == g.id) then
          Except.ok db
        else
          Except.ok { db with
            auth_user_groups := db.auth_user_groups ++ [(u.id, g.id)] }
      else
        Except.ok { db with
          auth_user_groups := db.auth_user_groups.filter
            (fun p => !(p.1 == u.id && p.2 == g.id)) }

/-- Digit accumulator for `py_int_of_string`. -/
def charsToNatAux : List Char → Nat → Option Nat
  | [], acc => some acc
  | c :: t, acc =>
    if c.isDigit then charsToNatAux t (acc * 10 + (c.toNat - 48)) else none

/-- Models Python's `int(identifier)`: an optional sign followed by
digits (Python additionally tolerates surrounding whitespace and digit
group underscores, which no caller here exercises). -/
def py_int_of_string (s : String) : Option Int :=
  match s.data with
  | [] => none
  | '-' :: t =>
    if t.isEmpty then none else (charsToNatAux t 0).map (fun n => -(n : Int))
  | '+' :: t =>
    if t.isEmpty then none else (charsToNatAux t 0).map (fun n => (n : Int))
  | l => (charsToNatAux l 0).map (fun n => (n : Int))

/-- User resolution step of `assign_db_generic` (main.py lines 142–148):
`identifier_type == "id"` looks the user up by numeric id (a
non-numeric identifier raises `ValueError`, surfaced as a 500); any
other identifier type looks the user up by username. -/
def db_resolve_user (db : DBState) (identifier identifier_type : String) :
    Except HTTPError (Option UserRow) :=
  if identifier_type == "id" then
    match py_int_of_string identifier with
    | none => Except.error ⟨500, "invalid literal for int"⟩
    | some n => Except.ok (db.auth_user.find? (fun u => u.id == n))
  else
    Except.ok (db.auth_user.find? (fun u => u.username == identifier))

/-- Models `assign_db_generic` (main.py lines 136–168): resolve the user
(404 if absent), then insert the `(user_id, target_type, target)` triple
if absent on `"assign"`, delete it on `"remove"`, and on any other
action commit without touching the table. -/
def assign_db_generic (db : DBState)
    (identifier identifier_type action target_type target : String) :
    Except HTTPError DBState :=
  match db_resolve_user db identifier identifier_type with
  | Except.error e => Except.error e
  | Except.ok none => Except.error ⟨404, "DB user not found"⟩
  | Except.ok (some u) =>
    if action == "assign" then
      if db.user_assignments.any
          (fun t => t.1 == u.id && t.2.1 == target_type && t.2.2 == target) then
        Except.ok db
      else
        Except.ok { db with
          user_assignments := db.user_assignments ++ [(u.id, target_type, target)] }
    else if action == "remove" then
      Except.ok { db with
        user_assignments := db.user_assignments.filter
          (fun t => !(t.1 == u.id && t.2.1 == target_type && t.2.2 == target)) }
    else
      Except.ok db

/-- Attribute test used by the directory user filter
`(|(cn=*q*)(sAMAccountName=*q*)(mail=*q*))`: present and containing the
query (LDAP substring matching is case-insensitive). -/
def optContainsCI (o : Option String) (q : String) : Bool :=
  match o with
  | some s => containsCI s q
  | none => false

/-- An entry matches the disjunctive user-search filter of
`search_ldap`. -/
def entryMatches (q : String) (e : LdapEntry) : Bool :=
  optContainsCI e.cn q || optContainsCI e.sAMAccountName q || optContainsCI e.mail q

/-- Normalization of a directory entry into `UserOut` (the attribute
dictionary reads of `search_ldap`; no numeric id is ever produced). -/
def userOutOfEntry (e : LdapEntry) : UserOut :=
  { id := none, username := e.sAMAccountName, email := e.mail,
    first_name := e.givenName, last_name := e.sn, dn := e.distinguishedName }

/-- Models `search_ldap` (main.py lines 178–195): every entry matching
the disjunctive filter, up to the server-side size limit, is normalized
and returned.  No entry is skipped and no membership check occurs. -/
def search_ldap (st : LdapState) (query : String) (limit : Nat) : List UserOut :=
  ((st.entries.filter (entryMatches query)).take limit).map userOutOfEntry

/-- Case-insensitive equality used by LDAP `cn=...` equality filters. -/
def optCnIs (o : Option String) (name : String) : Bool :=
  match o with
  | some c => lowerChars c.data == lowerChars name.data
  | none => false

/-- Models `find_ldap_group_dn_by_name` (main.py lines 211–221): search
for `(&(objectClass=group)(cn=group_name))`, 404 when nothing matches,
otherwise the first entry's DN. -/
def find_ldap_group_dn_by_name (st : LdapState) (group_name : String) :
    Except HTTPError String :=
  match st.entries.filter (fun e => e.objectClass_group && optCnIs e.cn group_name) with
  | [] => Except.error ⟨404, "LDAP group not found"⟩
  | e :: _ => Except.ok e.entry_dn

/-- Models `modify_ldap_group_membership` (main.py lines 197–209) as the
modify operation issued to the directory: target group DN, a flag that
is `true` for `MODIFY_ADD` (action `"assign"`) and `false` for
`MODIFY_DELETE` (any other action), and the member DN.  The external
service's own success flag is outside the model. -/
def modify_ldap_group_membership (group_dn user_dn action : String) :
    String × Bool × String :=
  if action == "assign" then (group_dn, true, user_dn)
  else (group_dn, false, user_dn)

/-- Modelled from the spec: the allow-list membership probe of §4.4 (one
`(&(objectClass=group)(cn=grp)(member=user_dn))` search per allow-listed
group name, short-circuiting on the first hit).  The active code has no
counterpart; a commented-out variant exists at the bottom of main.py. -/
def is_member_of_allowed_group_spec (st : LdapState) (allowed : List String)
    (user_dn : String) : Bool :=
  allowed.any (fun grp =>
    st.entries.any (fun e =>
      e.objectClass_group && optCnIs e.cn grp && e.member.contains user_dn))

/-- Models the endpoint `GET /user/search` (main.py lines 224–233). -/
def user_search (cfg : Config) (w : World) (q : String) (limit : Nat) : List UserOut :=
  if cfg.LDAP_SERVER_AVAILABLE && cfg.LDAP_GROUP_FILTER then search_ldap w.ldap q limit
  else search_db_users w.db q limit

/-- Directory branch of `POST /user/assign` (main.py lines 243–260):
reject non-group targets, resolve the user DN (pass-through for
`identifier_type == "dn"`, otherwise a limit-1 directory search with 404
on no match or an unresolvable DN), resolve the group DN, then issue the
membership modify.  The pair holds the backend-call trace and the
result; the directory state itself is owned by the external service, so
a successful modify returns the world unchanged with the issued
operation recorded in the trace. -/
def user_assign_ldap_flow (w : World) (req : AssignRequest) :
    List BackendCall × Except HTTPError World :=
  if req.target_type != "group" then
    ([], Except.error ⟨400, "LDAP mode supports only target_type=group"⟩)
  else
    match
      (if req.identifier_type == "dn" then
        (([] : List BackendCall), Except.ok req.identifier)
      else
        match search_ldap w.ldap req.identifier 1 with
        | [] => ([BackendCall.ldapUserSearch], Except.error ⟨404, "LDAP user not found"⟩)
        | m :: _ =>
          match m.dn with
          | none =>
            ([BackendCall.ldapUserSearch], Except.error ⟨404, "LDAP user DN not found"⟩)
          | some d =>
            if d == "" then
              ([BackendCall.ldapUserSearch],
               Except.error ⟨404, "LDAP user DN not found"⟩)
            else ([BackendCall.ldapUserSearch], Except.ok d)) with
    | (t, Except.error e) => (t, Except.error e)
    | (t, Except.ok user_dn) =>
      match find_ldap_group_dn_by_name w.ldap req.target with
      | Except.error e => (t ++ [BackendCall.ldapGroupSearch], Except.error e)
      | Except.ok group_dn =>
        (t ++ [BackendCall.ldapGroupSearch,
               BackendCall.ldapModify
                 (modify_ldap_group_membership group_dn user_dn req.action)],
         Except.ok w)

/-- Relational branch of `POST /user/assign` (main.py lines 261–284):
for group targets an `"id"` identifier is first converted to a username
(404 when no user has that id), then `assign_db_group` runs; any other
target type goes to `assign_db_generic`. -/
def user_assign_db_flow (w : World) (req : AssignRequest) :
    List BackendCall × Except HTTPError World :=
  if req.target_type == "group" then
    match
      (if req.identifier_type == "id" then
        match py_int_of_string req.identifier with
        | none => ([BackendCall.dbQuery], Except.error ⟨500, "invalid literal for int"⟩)
        | some n =>
          match w.db.auth_user.find? (fun u => u.id == n) with
          | none => ([BackendCall.dbQuery], Except.error ⟨404, "DB user not found"⟩)
          | some u => ([BackendCall.dbQuery], Except.ok u.username)
      else (([] : List BackendCall), Except.ok req.identifier)) with
    | (t, Except.error e) => (t, Except.error e)
    | (t, Except.ok ident) =>
      match assign_db_group w.db ident req.target req.action with
      | Except.error e => (t ++ [BackendCall.dbQuery], Except.error e)
      | Except.ok db' => (t ++ [BackendCall.dbQuery], Except.ok { w with db := db' })
  else
    match assign_db_generic w.db req.identifier req.identifier_type req.action
        req.target_type req.target with
    | Except.error e => ([BackendCall.dbQuery], Except.error e)
    | Except.ok db' => ([BackendCall.dbQuery], Except.ok { w with db := db' })

/-- Models the endpoint `POST /user/assign` (main.py lines 235–284). -/
def user_assign (cfg : Config) (w : World) (req : AssignRequest) :
    List BackendCall × Except HTTPError World :=
  if cfg.LDAP_SERVER_AVAILABLE && cfg.LDAP_GROUP_FILTER then user_assign_ldap_flow w req
  else user_assign_db_flow w req

/-- Models the endpoint `GET /ldap_users/search` (main.py lines
286–293): 400 unless directory mode is active, else a directory
search. -/
def ldap_users_search (cfg : Config) (w : World) (q : String) (limit : Nat) :
    Except HTTPError (List UserOut) :=
  if !(cfg.LDAP_SERVER_AVAILABLE && cfg.LDAP_GROUP_FILTER) then
    Except.error ⟨400, "LDAP not enabled in configuration"⟩
  else Except.ok (search_ldap w.ldap q limit)

/-! ## Sample states used by witnesses and counterexamples -/

/-- Sample relational user row. -/
def aliceRow : UserRow := ⟨1, "alice", "alice@example.com", "Alice", "L"⟩

/-- Sample relational group row. -/
def g1Row : GroupRow := ⟨10, "g1"⟩

/-- Sample relational store with one user and one group and no
memberships. -/
def dbSample : DBState := ⟨[aliceRow], [g1Row], [], []⟩

/-- Sample world around `dbSample` with an empty directory. -/
def wSample : World := ⟨dbSample, ⟨[]⟩⟩

def dbMember : DBState := ⟨[aliceRow], [g1Row], [(1, 10)], []⟩

def wMember : World := ⟨dbMember, ⟨[]⟩⟩

def dnUserRow : UserRow := ⟨5, "cn=bob,dc=example", "b@example.com", "Bob", "R"⟩

def dbDn : DBState := ⟨[dnUserRow], [g1Row], [], []⟩

def wDn : World := ⟨dbDn, ⟨[]⟩⟩

def idUserRow : UserRow := ⟨7, "carol", "c@example.com", "Carol", "K"⟩

def dbId : DBState := ⟨[idUserRow], [g1Row], [], []⟩

def wId : World := ⟨dbId, ⟨[]⟩⟩

def dbStudy : DBState := ⟨[aliceRow], [g1Row], [], [(1, "study", "s1")]⟩

def noDnEntry : LdapEntry :=
  ⟨"cn=x,dc=example", false, some ("x"), none, none, none, none, none, []⟩

def ldapNoDn : LdapState := ⟨[noDnEntry]⟩

def bobEntry : LdapEntry :=
  ⟨"cn=bob,dc=example", false, some ("bob"), some ("bob"), some ("bob@example.com"),
   some ("cn=bob,dc=example"), some ("Bob"), some ("R"), []⟩

def adminsGroupEntry : LdapEntry :=
  ⟨"cn=admins,dc=example", true, some ("admins"), none, none,
   some ("cn=admins,dc=example"), none, none, []⟩

def ldapBob : LdapState := ⟨[bobEntry, adminsGroupEntry]⟩

def rowAbc : UserRow := ⟨3, "abc", "zz@example.com", "Q", "W"⟩

def dbAbc : DBState := ⟨[rowAbc], [], [], []⟩

/-! ## Supporting lemmas -/

theorem charsLe_total : ∀ a b, charsLe a b = true ∨ charsLe b a = true := by
  intro a
  induction a with
  | nil => intro b; left; rfl
  | cons x xs ih =>
    intro b
    cases b with
    | nil => right; rfl
    | cons y ys =>
      by_cases hxy : x.toNat < y.toNat
      · left; simp [charsLe, hxy]
      · by_cases hyx : y.toNat < x.toNat
        · right; simp [charsLe, hyx]
        · rcases ih ys with h | h
          · left; simp [charsLe, hxy, hyx, h]
          · right; simp [charsLe, hxy, hyx, h]

/-- The collation order is transitive. -/
theorem charsLe_trans :
    ∀ a b c, charsLe a b = true → charsLe b c = true → charsLe a c = true := by
  intro a
  induction a with
  | nil => intro b c _ _; rfl
  | cons x xs ih =>
    intro b c hab hbc
    cases b with
    | nil => simp [charsLe] at hab
    | cons y ys =>
      cases c with
      | nil => simp [charsLe] at hbc
      | cons z zs =>
        simp only [charsLe] at hab hbc ⊢
        split at hab
        · split
          · rfl
          · split
            · rename_i hxy _ hzx
              split at hbc
              · omega
              · split at hbc
                · exact absurd hbc (by simp)
                · omega
            · rename_i hxy hxz hzx
              split at hbc
              · omega
              · split at hbc
                · exact absurd hbc (by simp)
                · omega
        · split at hab
          · exact absurd hab (by simp)
          · split at hbc
            · rename_i hxy hyx hyz
              split
              · rfl
              · rename_i hxz
                split
                · omega
                · omega
            · split at hbc
              · exact absurd hbc (by simp)
              · rename_i hxy hyx hyz hzy
                split
                · rfl
                · split
                  · omega
                  · rename_i hxz hzx
                    exact ih ys zs hab hbc

/-! ## Claims -/

/-- C1: the active backend mode is `Directory` iff both configuration
booleans are true, and each of the three endpoints (`/user/search`,
`/user/assign`, `/ldap_users/search`) routes by exactly this rule, with
no per-request override. -/
theorem C1_single_backend_selector :
    (∀ c : Config, activeMode c = BackendMode.Directory ↔
        (c.LDAP_SERVER_AVAILABLE = true ∧ c.LDAP_GROUP_FILTER = true)) ∧
    (∀ (c : Config) (w : World) (q : String) (lim : Nat),
      user_search c w q lim =
        (match activeMode c with
         | BackendMode.Directory => search_ldap w.ldap q lim
         | BackendMode.Relational => search_db_users w.db q lim)) ∧
    (∀ (c : Config) (w : World) (req : AssignRequest),
      user_assign c w req =
        (match activeMode c with
         | BackendMode.Directory => user_assign_ldap_flow w req
         | BackendMode.Relational => user_assign_db_flow w req)) ∧
    (∀ (c : Config) (w : World) (q : String) (lim : Nat),
      ldap_users_search c w q lim =
        (match activeMode c with
         | BackendMode.Directory => Except.ok (search_ldap w.ldap q lim)
         | BackendMode.Relational =>
             Except.error ⟨400, "LDAP not enabled in configuration"⟩)) := by
  refine ⟨?_, ?_, ?_, ?_⟩
  · intro c
    obtain ⟨a, b⟩ := c
    cases a <;> cases b <;> simp [activeMode]
  · intro c w q lim
    obtain ⟨a, b⟩ := c
    cases a <;> cases b <;> rfl
  · intro c w req
    obtain ⟨a, b⟩ := c
    cases a <;> cases b <;> rfl
  · intro c w q lim
    obtain ⟨a, b⟩ := c
    cases a <;> cases b <;> rfl

/-- C5: in directory mode, an assign request whose target type is not
"group" fails with the 400 InvalidArgument error and the backend-call
trace is empty: neither store is contacted. -/
theorem C5_directory_rejects_nongroup (cfg : Config) (w : World) (req : AssignRequest)
    (hmode : activeMode cfg = BackendMode.Directory)
    (ht : req.target_type ≠ "group") :
    user_assign cfg w req =
      ([], Except.error ⟨400, "LDAP mode supports only target_type=group"⟩) := by
  have hc : (cfg.LDAP_SERVER_AVAILABLE && cfg.LDAP_GROUP_FILTER) = true := by
    unfold activeMode at hmode
    split at hmode
    · assumption
    · exact absurd hmode (by simp)
  simp [user_assign, hc, user_assign_ldap_flow, ht]

/-- Witness for C5 at a concrete directory-mode configuration and a
"study" target. -/
theorem C5_directory_rejects_nongroup_witness :
    user_assign ⟨true, true⟩ wSample ⟨"alice", "username", "assign", "study", "s1"⟩ =
      ([], Except.error ⟨400, "LDAP mode supports only target_type=group"⟩) :=
  C5_directory_rejects_nongroup ⟨true, true⟩ wSample
    ⟨"alice", "username", "assign", "study", "s1"⟩ rfl (by decide)

/-- C10: any action other than "assign" (not only "remove") makes the
relational group operation behave exactly as removal, and makes the
directory membership modify issue a delete-member operation; neither
operation ever rejects an action value. -/
theorem C10_nonassign_routes_to_removal (a : String) (ha : a ≠ "assign") :
    (∀ (db : DBState) (u g : String),
      assign_db_group db u g a = assign_db_group db u g ("remove")) ∧
    (∀ gdn udn : String,
      modify_ldap_group_membership gdn udn a = (gdn, false, udn)) := by
  have hb : (a == "assign") = false := by simp [ha]
  have hr : (("remove" : String) == "assign") = false := by decide
  constructor
  · intro db u g
    unfold assign_db_group
    cases hfu : db.auth_user.find? (fun x => x.username == u) <;>
      cases hfg : db.auth_group.find? (fun x => x.name == g) <;>
        simp [hb, hr]
  · intro gdn udn
    simp [modify_ldap_group_membership, hb]

/-- Witness for C10 at the arbitrary action value "frobnicate". -/
theorem C10_nonassign_routes_to_removal_witness :
    assign_db_group dbSample ("alice") ("g1") ("frobnicate") =
        assign_db_group dbSample ("alice") ("g1") ("remove") ∧
    modify_ldap_group_membership ("cn=g,dc=x") ("cn=u,dc=x") ("frobnicate") =
      (("cn=g,dc=x"), false, ("cn=u,dc=x")) :=
  ⟨(C10_nonassign_routes_to_removal ("frobnicate") (by decide)).1 dbSample
      ("alice") ("g1"),
   (C10_nonassign_routes_to_removal ("frobnicate") (by decide)).2
      ("cn=g,dc=x") ("cn=u,dc=x")⟩

/-- Any error produced by the generic user-resolution step is a 500. -/
theorem db_resolve_user_error_code (db : DBState) (i it : String) (e : HTTPError)
    (h : db_resolve_user db i it = Except.error e) : e.status_code = 500 := by
  unfold db_resolve_user at h
  split at h
  · split at h
    · injection h with h'
      rw [← h']
    · simp at h
  · simp at h

/-- Any error produced by `assign_db_group` is a 404 (user or group
not found). -/
theorem assign_db_group_error_code (db : DBState) (u g a : String) (e : HTTPError)
    (h : assign_db_group db u g a = Except.error e) : e.status_code = 404 := by
  unfold assign_db_group at h
  split at h
  · injection h with h'
    rw [← h']
  · split at h
    · injection h with h'
      rw [← h']
    · split at h
      · split at h <;> simp at h
      · simp at h

/-- Any error produced by `assign_db_generic` is a 404 or a 500. -/
theorem assign_db_generic_error_code (db : DBState) (i it a tt t : String) (e : HTTPError)
    (h : assign_db_generic db i it a tt t = Except.error e) :
    e.status_code = 404 ∨ e.status_code = 500 := by
  unfold assign_db_generic at h
  split at h
  next e' heq =>
    injection h with h'
    right
    rw [← h']
    exact db_resolve_user_error_code db i it e' heq
  next heq =>
    injection h with h'
    left
    rw [← h']
  next u heq =>
    split at h
    · split at h <;> simp at h
    · split at h <;> simp at h

/-- Any error produced by the relational branch of `/user/assign` is a
404 or a 500, never a 400. -/
theorem user_assign_db_flow_error_code (w : World) (req : AssignRequest) (e : HTTPError)
    (h : (user_assign_db_flow w req).2 = Except.error e) :
    e.status_code = 404 ∨ e.status_code = 500 := by
  unfold user_assign_db_flow at h
  split at h
  · split at h
    next t e' heq =>
      replace h : Except.error e' = Except.error e := h
      injection h with h'
      subst h'
      split at heq
      · split at heq
        · simp only [Prod.mk.injEq, Except.error.injEq] at heq
          right
          rw [← heq.2]
        · split at heq
          · simp only [Prod.mk.injEq, Except.error.injEq] at heq
            left
            rw [← heq.2]
          · simp at heq
      · simp at heq
    next t ident heq =>
      split at h
      next e2 heq2 =>
        replace h : Except.error e2 = Except.error e := h
        injection h with h'
        subst h'
        left
        exact assign_db_group_error_code w.db ident req.target req.action e2 heq2
      next db' heq2 =>
        simp at h
  · split at h
    next e2 heq2 =>
      replace h : Except.error e2 = Except.error e := h
      injection h with h'
      subst h'
      exact assign_db_generic_error_code w.db req.identifier req.identifier_type
        req.action req.target_type req.target e2 heq2
    next db' heq2 =>
      simp at h

/-- In relational mode the inlined boolean condition is false. -/
theorem activeMode_relational_cond (cfg : Config)
    (hmode : activeMode cfg = BackendMode.Relational) :
    (cfg.LDAP_SERVER_AVAILABLE && cfg.LDAP_GROUP_FILTER) = false := by
  unfold activeMode at hmode
  split at hmode
  · exact absurd hmode (by simp)
  · rename_i hcond
    simpa using hcond

/-- C2 amended: `assign` performs no up-front validation of `action` or
of identifier/target non-emptiness; requests go straight to the backend
flow, and in relational mode every failure is a 404 NotFound or a 500,
never a 400 InvalidArgument. -/
theorem C2_amended (cfg : Config) (w : World) (req : AssignRequest) (e : HTTPError)
    (hmode : activeMode cfg = BackendMode.Relational)
    (herr : (user_assign cfg w req).2 = Except.error e) :
    e.status_code = 404 ∨ e.status_code = 500 := by
  have hc := activeMode_relational_cond cfg hmode
  rw [user_assign, hc] at herr
  simp only [Bool.false_eq_true, if_false] at herr
  exact user_assign_db_flow_error_code w req e herr

/-- C2 counterexample: the unknown action "frobnicate" is not rejected
with InvalidArgument — it reaches the relational backend (non-empty
trace) and executes the removal branch; and an empty identifier is not
rejected either, failing 404 from the backend lookup instead. -/
theorem C2_counterexample :
    (user_assign ⟨false, false⟩ wMember ⟨"alice", "username", "frobnicate", "group", "g1"⟩ =
      ([BackendCall.dbQuery], Except.ok ⟨⟨[aliceRow], [g1Row], [], []⟩, ⟨[]⟩⟩)) ∧
    (user_assign ⟨false, false⟩ wMember ⟨"", "username", "assign", "group", "g1"⟩ =
      ([BackendCall.dbQuery], Except.error ⟨404, "DB user not found"⟩)) := ⟨rfl, rfl⟩

/-- Witness for C2 amended at a concrete relational request whose user
does not exist. -/
theorem C2_amended_witness :
    (HTTPError.mk 404 ("DB user not found")).status_code = 404 ∨
    (HTTPError.mk 404 ("DB user not found")).status_code = 500 :=
  C2_amended ⟨false, false⟩ wSample ⟨"nobody", "username", "assign", "group", "g1"⟩
    ⟨404, "DB user not found"⟩ rfl rfl

/-- The generic assignment treats the identifier type "dn" exactly as
"username": the resolution branch only distinguishes "id". -/
theorem assign_db_generic_dn_as_username (db : DBState) (i a tt t : String) :
    assign_db_generic db i ("dn") a tt t = assign_db_generic db i ("username") a tt t := rfl

/-- C4 amended: in relational mode a request with identifierType = dn is
not rejected; the distinguished name is silently coerced — passed to the
group or generic operation as if it were a username (failing 404
NotFound when no user carries it, never InvalidArgument). -/
theorem C4_amended (cfg : Config) (w : World) (req : AssignRequest)
    (hmode : activeMode cfg = BackendMode.Relational)
    (hdn : req.identifier_type = "dn") :
    (req.target_type = "group" →
      (user_assign cfg w req).2 =
        (assign_db_group w.db req.identifier req.target req.action).map
          (fun db' => { w with db := db' })) ∧
    (req.target_type ≠ "group" →
      (user_assign cfg w req).2 =
        (assign_db_generic w.db req.identifier ("username") req.action
          req.target_type req.target).map (fun db' => { w with db := db' })) := by
  have hc := activeMode_relational_cond cfg hmode
  constructor
  · intro hg
    rw [user_assign, hc]
    simp only [Bool.false_eq_true, if_false]
    rw [user_assign_db_flow]
    have hbg : (req.target_type == "group") = true := by simp [hg]
    have hbid : (req.identifier_type == "id") = false := by simp [hdn]
    rw [hbg, hbid]
    simp only [Bool.false_eq_true, if_false, if_true]
    cases hres : assign_db_group w.db req.identifier req.target req.action <;>
      simp [hres, Except.map]
  · intro hng
    rw [user_assign, hc]
    simp only [Bool.false_eq_true, if_false]
    rw [user_assign_db_flow]
    have hbg : (req.target_type == "group") = false := by simp [hng]
    rw [hbg]
    simp only [Bool.false_eq_true, if_false]
    rw [hdn, assign_db_generic_dn_as_username]
    cases hres : assign_db_generic w.db req.identifier ("username") req.action
        req.target_type req.target <;>
      simp [hres, Except.map]

/-- C4 counterexample: in relational mode a dn-typed assign request
succeeds outright when some user's username equals the DN string — the
DN is coerced to a username instead of failing with InvalidArgument. -/
theorem C4_counterexample :
    user_assign ⟨false, false⟩ wDn ⟨"cn=bob,dc=example", "dn", "assign", "group", "g1"⟩ =
      ([BackendCall.dbQuery], Except.ok ⟨⟨[dnUserRow], [g1Row], [(5, 10)], []⟩, ⟨[]⟩⟩) := rfl

/-- Witness for C4 amended at a concrete dn-typed relational request. -/
theorem C4_amended_witness :
    (user_assign ⟨true, false⟩ wDn ⟨"cn=bob,dc=example", "dn", "assign", "group", "g1"⟩).2 =
      (assign_db_group wDn.db ("cn=bob,dc=example") ("g1") ("assign")).map
        (fun db' => { wDn with db := db' }) :=
  (C4_amended ⟨true, false⟩ wDn ⟨"cn=bob,dc=example", "dn", "assign", "group", "g1"⟩
    rfl rfl).1 rfl

/-- C9: in relational mode with identifierType = id and target type
"group", the numeric id is first resolved to a username (404 NotFound
when absent) and the group mutation runs under that username, not the
numeric id. -/
theorem C9_id_resolution (cfg : Config) (w : World) (req : AssignRequest) (n : Int)
    (hmode : activeMode cfg = BackendMode.Relational)
    (hg : req.target_type = "group")
    (hid : req.identifier_type = "id")
    (hn : py_int_of_string req.identifier = some n) :
    (w.db.auth_user.find? (fun u => u.id == n) = none →
      (user_assign cfg w req).2 = Except.error ⟨404, "DB user not found"⟩) ∧
    (∀ uu : UserRow, w.db.auth_user.find? (fun u => u.id == n) = some uu →
      (user_assign cfg w req).2 =
        (assign_db_group w.db uu.username req.target req.action).map
          (fun db' => { w with db := db' })) := by
  have hc := activeMode_relational_cond cfg hmode
  have hbg : (req.target_type == "group") = true := by simp [hg]
  have hbid : (req.identifier_type == "id") = true := by simp [hid]
  constructor
  · intro hfind
    rw [user_assign, hc]
    simp only [Bool.false_eq_true, if_false]
    rw [user_assign_db_flow, hbg, hbid]
    simp only [if_true]
    simp only [hn, hfind]
  · intro uu hfind
    rw [user_assign, hc]
    simp only [Bool.false_eq_true, if_false]
    rw [user_assign_db_flow, hbg, hbid]
    simp only [if_true]
    simp only [hn, hfind]
    cases hres : assign_db_group w.db uu.username req.target req.action <;>
      simp [hres, Except.map]

/-- Witness for C9 at a concrete store where id 7 is username carol. -/
theorem C9_id_resolution_witness :
    (user_assign ⟨false, false⟩ wId ⟨"7", "id", "assign", "group", "g1"⟩).2 =
      (assign_db_group wId.db idUserRow.username ("g1") ("assign")).map
        (fun db' => { wId with db := db' }) :=
  (C9_id_resolution ⟨false, false⟩ wId ⟨"7", "id", "assign", "group", "g1"⟩ 7
    rfl rfl rfl rfl).2 idUserRow rfl

/-- User resolution ignores the `user_assignments` table. -/
theorem db_resolve_user_assignments_stable (db : DBState) (X : List (Int × String × String))
    (i it : String) :
    db_resolve_user { db with user_assignments := X } i it = db_resolve_user db i it := rfl

/-- C3: against the relational backend, a second identical `assign` of a
group membership or generic triple is a no-op returning the same state,
and `remove` of an absent membership or triple succeeds and leaves the
state unchanged. -/
theorem C3_relational_idempotence :
    (∀ (db : DBState) (u g : String) (db' : DBState),
      assign_db_group db u g ("assign") = Except.ok db' →
      assign_db_group db' u g ("assign") = Except.ok db') ∧
    (∀ (db : DBState) (u g : String) (uu : UserRow) (gg : GroupRow),
      db.auth_user.find? (fun x => x.username == u) = some uu →
      db.auth_group.find? (fun x => x.name == g) = some gg →
      db.auth_user_groups.any (fun p => p.1 == uu.id && p.2 == gg.id) = false →
      assign_db_group db u g ("remove") = Except.ok db) ∧
    (∀ (db : DBState) (i it tt t : String) (db' : DBState),
      assign_db_generic db i it ("assign") tt t = Except.ok db' →
      assign_db_generic db' i it ("assign") tt t = Except.ok db') ∧
    (∀ (db : DBState) (i it tt t : String) (uu : UserRow),
      db_resolve_user db i it = Except.ok (some uu) →
      db.user_assignments.any
        (fun p => p.1 == uu.id && p.2.1 == tt && p.2.2 == t) = false →
      assign_db_generic db i it ("remove") tt t = Except.ok db) := by
  have hAA : (("assign" : String) == "assign") = true := rfl
  have hRA : (("remove" : String) == "assign") = false := rfl
  have hRR : (("remove" : String) == "remove") = true := rfl
  refine ⟨?_, ?_, ?_, ?_⟩
  · intro db u g db' h
    unfold assign_db_group at h ⊢
    split at h
    · simp at h
    next uu hequ =>
      split at h
      · simp at h
      next gg heqg =>
        simp only [hAA, if_true] at h
        split at h
        next hany =>
          injection h with h'
          subst h'
          simp only [hequ, heqg, hAA, if_true, hany]
        next hany =>
          injection h with h'
          subst h'
          simp only [hequ, heqg, hAA, if_true]
          simp [List.any_append, hany]
  · intro db u g uu gg hu hg hany
    unfold assign_db_group
    simp only [hu, hg, hRA, Bool.false_eq_true, if_false]
    have hfilt : db.auth_user_groups.filter
        (fun p => !(p.1 == uu.id && p.2 == gg.id)) = db.auth_user_groups := by
      rw [List.filter_eq_self]
      intro p hp
      have h2 := (List.any_eq_false.mp hany) p hp
      simp at h2 ⊢
      tauto
    rw [hfilt]
  · intro db i it tt t db' h
    unfold assign_db_generic at h ⊢
    split at h
    · simp at h
    · simp at h
    next uu heq =>
      simp only [hAA, if_true] at h
      split at h
      next hany =>
        injection h with h'
        subst h'
        simp only [heq, hAA, if_true, hany]
      next hany =>
        injection h with h'
        subst h'
        rw [db_resolve_user_assignments_stable] at heq ⊢
        simp only [heq, hAA, if_true]
        simp [List.any_append, hany]
  · intro db i it tt t uu hres hany
    unfold assign_db_generic
    simp only [hres, hRA, Bool.false_eq_true, if_false, hRR, if_true]
    have hfilt : db.user_assignments.filter
        (fun p => !(p.1 == uu.id && p.2.1 == tt && p.2.2 == t)) = db.user_assignments := by
      rw [List.filter_eq_self]
      intro p hp
      have h2 := (List.any_eq_false.mp hany) p hp
      simp at h2 ⊢
      tauto
    rw [hfilt]

/-- Witness for C3 at concrete one-user stores. -/
theorem C3_relational_idempotence_witness :
    (assign_db_group dbMember ("alice") ("g1") ("assign") = Except.ok dbMember) ∧
    (assign_db_group dbSample ("alice") ("g1") ("remove") = Except.ok dbSample) ∧
    (assign_db_generic dbStudy ("alice") ("username") ("assign") ("study") ("s1") =
      Except.ok dbStudy) ∧
    (assign_db_generic dbSample ("alice") ("username") ("remove") ("study") ("s1") =
      Except.ok dbSample) :=
  ⟨C3_relational_idempotence.1 dbSample ("alice") ("g1") dbMember rfl,
   C3_relational_idempotence.2.1 dbSample ("alice") ("g1") aliceRow g1Row rfl rfl rfl,
   C3_relational_idempotence.2.2.1 dbSample ("alice") ("username") ("study") ("s1")
     dbStudy rfl,
   C3_relational_idempotence.2.2.2 dbSample ("alice") ("username") ("study") ("s1")
     aliceRow rfl rfl⟩

/-- C6 counterexample: a directory entry whose attribute dictionary has
neither `distinguishedName` nor `sAMAccountName` is not skipped by
`search_ldap`; it yields a record whose `username` and `dn` are both
empty, contradicting the claimed invariant. -/
theorem C6_counterexample :
    search_ldap ldapNoDn ("x") 25 = [⟨none, none, none, none, none, none⟩] ∧
    (⟨none, none, none, none, none, none⟩ : UserOut).username = none ∧
    (⟨none, none, none, none, none, none⟩ : UserOut).dn = none := ⟨rfl, rfl, rfl⟩

/-- C6 amended: directory search skips nothing — it returns one record
per filter-matching entry up to the size limit, even for entries with no
resolvable distinguished name — while relational records always carry
the row's username and never a distinguished name. -/
theorem C6_amended :
    (∀ (st : LdapState) (q : String) (lim : Nat),
      (search_ldap st q lim).length =
        min lim (st.entries.filter (entryMatches q)).length) ∧
    (∀ (db : DBState) (q : String) (lim : Nat) (r : UserOut),
      r ∈ search_db_users db q lim → r.username.isSome ∧ r.dn = none) := by
  constructor
  · intro st q lim
    simp [search_ldap, List.length_map, List.length_take]
  · intro db q lim r hr
    unfold search_db_users at hr
    rw [List.mem_map] at hr
    obtain ⟨row, _, hrow⟩ := hr
    rw [← hrow]
    simp [userOutOfRow]

/-- Witness for C6 amended at a concrete relational search. -/
theorem C6_amended_witness :
    (userOutOfRow idUserRow).username.isSome ∧ (userOutOfRow idUserRow).dn = none :=
  C6_amended.2 dbId ("carol") 25 (userOutOfRow idUserRow) (by decide)

/-- C7 counterexample: with the allow-list `["admins"]` configured, a
candidate who is a member of no allow-listed group (the spec's own
membership probe answers false) still appears in the results of
`search_ldap`: the active code performs no membership filtering. -/
theorem C7_counterexample :
    is_member_of_allowed_group_spec ldapBob (["admins"]) ("cn=bob,dc=example") = false ∧
    userOutOfEntry bobEntry ∈ search_ldap ldapBob ("bob") 25 := ⟨rfl, by decide⟩

/-- C7 amended: directory search applies no group-membership filtering;
every filter-matching candidate within the size limit appears in the
results, even when the allow-list membership probe (as the spec defines
it) rejects the candidate for every allow-listed group. -/
theorem C7_amended (st : LdapState) (q : String) (lim : Nat) (allowed : List String)
    (e : LdapEntry)
    (hlen : (st.entries.filter (entryMatches q)).length ≤ lim)
    (he : e ∈ st.entries) (hm : entryMatches q e = true)
    (_hnot : is_member_of_allowed_group_spec st allowed
      ((e.distinguishedName).getD ("")) = false) :
    userOutOfEntry e ∈ search_ldap st q lim := by
  unfold search_ldap
  rw [List.take_of_length_le hlen]
  exact List.mem_map_of_mem _ (List.mem_filter.mpr ⟨he, hm⟩)

/-- Witness for C7 amended at the concrete non-member candidate. -/
theorem C7_amended_witness :
    userOutOfEntry bobEntry ∈ search_ldap ldapBob ("bob") 10 :=
  C7_amended ldapBob ("bob") 10 (["admins"]) bobEntry (by decide) (by decide)
    (by decide) (by decide)

/-- C8 counterexample: for the query `a_c` the code returns the user
`abc` — `_` is an `ILIKE` wildcard — although none of username, email,
or the "first last" concatenation contains the query as a substring
(case-insensitively), contradicting the claim's "contains the query"
characterization. -/
theorem C8_counterexample :
    search_db_users dbAbc ("a_c") 25 = [userOutOfRow rowAbc] ∧
    containsCI rowAbc.username ("a_c") = false ∧
    containsCI rowAbc.email ("a_c") = false ∧
    containsCI (rowAbc.first_name ++ " " ++ rowAbc.last_name) ("a_c") = false :=
  ⟨rfl, rfl, rfl, rfl⟩

/-- C8 amended: relational search returns exactly the users matching the
`ILIKE` pattern `%query%` over username, email, or the "first last"
concatenation (so `%` and `_` in the query act as wildcards; for
queries without them this is case-insensitive substring containment),
ordered by username ascending, capped at `limit`, and empty — never an
error — when no row matches. -/
theorem C8_amended :
    (∀ (db : DBState) (q : String) (lim : Nat),
      List.Pairwise outLe (search_db_users db q lim)) ∧
    (∀ (db : DBState) (q : String) (lim : Nat),
      (search_db_users db q lim).length ≤ lim) ∧
    (∀ (db : DBState) (q : String) (lim : Nat),
      (db.auth_user.filter (rowMatches q)).length ≤ lim →
      ∀ r : UserOut, (r ∈ search_db_users db q lim ↔
        ∃ row : UserRow, row ∈ db.auth_user ∧ rowMatches q row = true ∧
          r = userOutOfRow row)) ∧
    (∀ (db : DBState) (q : String) (lim : Nat),
      (∀ row ∈ db.auth_user, rowMatches q row = false) →
      search_db_users db q lim = []) := by
  refine ⟨?_, ?_, ?_, ?_⟩
  · intro db q lim
    unfold search_db_users
    rw [List.pairwise_map]
    refine List.Pairwise.sublist (List.take_sublist _ _) ?_
    haveI : IsTotal UserRow rowLe :=
      ⟨fun a b => charsLe_total a.username.data b.username.data⟩
    haveI : IsTrans UserRow rowLe :=
      ⟨fun _ _ _ h h' => charsLe_trans _ _ _ h h'⟩
    have hs := List.sorted_insertionSort rowLe (db.auth_user.filter (rowMatches q))
    exact hs.imp (fun h => h)
  · intro db q lim
    unfold search_db_users
    simp only [List.length_map, List.length_take]
    exact min_le_left _ _
  · intro db q lim hlen r
    unfold search_db_users
    have hlen' : ((db.auth_user.filter (rowMatches q)).insertionSort rowLe).length ≤ lim := by
      rw [List.length_insertionSort]
      exact hlen
    rw [List.take_of_length_le hlen']
    simp only [List.mem_map, List.mem_insertionSort, List.mem_filter]
    constructor
    · rintro ⟨row, ⟨hmem, hmatch⟩, heq⟩
      exact ⟨row, hmem, hmatch, heq.symm⟩
    · rintro ⟨row, hmem, hmatch, heq⟩
      exact ⟨row, ⟨hmem, hmatch⟩, heq.symm⟩
  · intro db q lim hnone
    unfold search_db_users
    have hfilt : db.auth_user.filter (rowMatches q) = [] := by
      rw [List.filter_eq_nil_iff]
      intro a ha
      simp [hnone a ha]
    rw [hfilt]
    simp

/-- Witness for C8 amended: the membership characterization at a
concrete store and query. -/
theorem C8_amended_witness :
    userOutOfRow rowAbc ∈ search_db_users dbAbc ("abc") 25 :=
  ((C8_amended.2.2.1 dbAbc ("abc") 25 (by decide)) (userOutOfRow rowAbc)).mpr
    ⟨rowAbc, by decide, by decide, rfl⟩
